import Mathlib

/-!
Verification of the image compositing engine of the photo-booth repository.

The source under scrutiny is the composite/page-size module (exported
functions `extractStripFromComposite`, `getPageSizeFromGrid`,
`createStripGridComposite`, `createGridComposite`).  JavaScript numbers are
modelled as exact rationals (`ℚ`), `Math.round` as `⌊q + 1/2⌋`, `Math.floor`
on nonnegative integer division as `Nat` division, nullable values as
`Option`, thrown errors as `Except`, and the canvas draw calls as explicit
lists of draw operations (full-source-rectangle blits with rational
destination rectangles).  Image decoding (`new Image()` + `onload`/`onerror`)
is modelled by letting each supplied photo be an `Option Img`: `none` is a
photo that fails to decode, and the `Promise.all` join fails exactly when
some photo is `none`.
-/

namespace PhotoBooth

/-- JavaScript `Math.round`: round half toward positive infinity. -/
def jsRound (q : ℚ) : ℤ := ⌊q + 1 / 2⌋

/-- A decoded raster image: `img.width`/`img.height` in pixels. -/
structure Img where
  width : Nat
  height : Nat
deriving DecidableEq, Repr

/-- The grid descriptor object `{ id, cols, rows, isStripGrid }`; every field
may be absent in JavaScript, hence the `Option`s. -/
structure Grid where
  id : Option String := none
  cols : Option Nat := none
  rows : Option Nat := none
  isStripGrid : Bool := false
deriving DecidableEq, Repr

/-- The argument accepted by `getPageSizeFromGrid`: `null`/`undefined`, a raw
string id, or a grid object. -/
inductive GridArg
  | null
  | str (s : String)
  | obj (g : Grid)
deriving DecidableEq, Repr

/-- `{ widthInches, heightInches, pageSize }`. -/
structure PageSizeConfig where
  widthInches : ℚ
  heightInches : ℚ
  pageSize : String
deriving DecidableEq, Repr

/-- An entry of the `standardSizes` literal. -/
structure StdSize where
  w : ℚ
  h : ℚ
  name : String
deriving DecidableEq, Repr

def stdToConfig (s : StdSize) : PageSizeConfig :=
  { widthInches := s.w, heightInches := s.h, pageSize := s.name }

/-- JavaScript truthiness of the whole `grid` argument (`!grid`):
`null`/`undefined` and the empty string are falsy; every object is truthy. -/
def jsFalsyArg : GridArg → Bool
  | .null => true
  | .str s => s = ""
  | .obj _ => false

/-- JavaScript `v || d` applied to a possibly-missing number read off a grid:
`undefined` and `0` are falsy and give the default. -/
def jsOrNat (v : Option Nat) (d : Nat) : Nat :=
  match v with
  | some n => if n = 0 then d else n
  | none => d

/-- `typeof grid === 'string' ? grid : grid.id`. -/
def gridIdOf : GridArg → Option String
  | .null => none
  | .str s => some s
  | .obj g => g.id

/-- `grid.cols || 1` (a string or null grid has no readable `cols`). -/
def gridColsOf : GridArg → Nat
  | .obj g => jsOrNat g.cols 1
  | _ => 1

/-- `grid.rows || 1`. -/
def gridRowsOf : GridArg → Nat
  | .obj g => jsOrNat g.rows 1
  | _ => 1

/-- The `gridToPageSize` literal: current and legacy grid ids, all 4×6. -/
def gridToPageSize : List (String × PageSizeConfig) :=
  [("4x6-single", ⟨4, 6, "4x6"⟩),
   ("4x6-2cut", ⟨4, 6, "4x6"⟩),
   ("4x6-4cut", ⟨4, 6, "4x6"⟩),
   ("4x6-6cut", ⟨4, 6, "4x6"⟩),
   ("strip-grid", ⟨4, 6, "4x6"⟩),
   ("5x5-single", ⟨4, 6, "4x6"⟩),
   ("2x4-vertical-2", ⟨4, 6, "4x6"⟩),
   ("5x7-6cut", ⟨4, 6, "4x6"⟩)]

/-- `gridToPageSize[gridId]`: property lookup with a possibly-undefined key. -/
def catalogLookup (id : Option String) : Option PageSizeConfig :=
  match id with
  | none => none
  | some s => (gridToPageSize.find? (fun e => e.1 == s)).map (fun e => e.2)

/-- The `standardSizes` literal, in source order. -/
def standardSizes : List StdSize :=
  [⟨2, 4, "2x4"⟩, ⟨4, 6, "4x6"⟩, ⟨5, 7, "5x7"⟩, ⟨8, 10, "8x10"⟩]

/-- `Math.abs(widthInches - size.w) + Math.abs(heightInches - size.h)`. -/
def sizeDiff (wi hi : ℚ) (s : StdSize) : ℚ := |wi - s.w| + |hi - s.h|

/-- The `let closest = standardSizes[0]; ... standardSizes.forEach(...)` loop:
keep the current entry unless a strictly smaller Manhattan distance appears. -/
def closestStd (wi hi : ℚ) : StdSize :=
  (standardSizes.foldl
    (fun acc s => if sizeDiff wi hi s < acc.2 then (s, sizeDiff wi hi s) else acc)
    (⟨2, 4, "2x4"⟩, sizeDiff wi hi ⟨2, 4, "2x4"⟩)).1

/-- The four standard sizes indexed in source order. -/
def stdAt : Fin 4 → StdSize
  | 0 => ⟨2, 4, "2x4"⟩
  | 1 => ⟨4, 6, "4x6"⟩
  | 2 => ⟨5, 7, "5x7"⟩
  | 3 => ⟨8, 10, "8x10"⟩

/-- `getPageSizeFromGrid(grid)`. -/
def getPageSizeFromGrid (grid : GridArg) : PageSizeConfig :=
  if jsFalsyArg grid then
    ⟨4, 6, "4x6"⟩
  else
    match catalogLookup (gridIdOf grid) with
    | some cfg => cfg
    | none =>
      let cols := gridColsOf grid
      let rows := gridRowsOf grid
      let cellWidth : ℚ := 2
      let cellHeight : ℚ := 3
      let margin : ℚ := 1 / 10
      let widthInches : ℚ := cellWidth * cols + margin * ((cols : ℚ) - 1)
      let heightInches : ℚ := cellHeight * rows + margin * ((rows : ℚ) - 1)
      stdToConfig (closestStd widthInches heightInches)

/-! ## Aspect-fit placement (the in-cell fitting computation, inlined twice
in the source with identical structure) -/

/-- The rectangle a photo is drawn into. -/
structure Placement where
  drawX : ℚ
  drawY : ℚ
  drawW : ℚ
  drawH : ℚ
deriving DecidableEq, Repr

/-- The contain-fit computation shared by both compositors: compare the image
aspect with the cell aspect; fit to width (flush left, vertically centered)
when the image is relatively wider, else fit to height (flush top,
horizontally centered). -/
def aspectFitPlace (imgAspect cellX cellY cellW cellH : ℚ) : Placement :=
  let cellAspect := cellW / cellH
  if imgAspect > cellAspect then
    { drawX := cellX
      drawY := cellY + (cellH - cellW / imgAspect) / 2
      drawW := cellW
      drawH := cellW / imgAspect }
  else
    { drawX := cellX + (cellW - cellH * imgAspect) / 2
      drawY := cellY
      drawW := cellH * imgAspect
      drawH := cellH }

/-! ## Canvas model -/

/-- One `ctx.drawImage(img, 0, 0, img.width, img.height, drawX, drawY,
drawWidth, drawHeight)` call: the full source image blitted to a destination
rectangle. -/
structure DrawOp where
  srcW : Nat
  srcH : Nat
  dstX : ℚ
  dstY : ℚ
  dstW : ℚ
  dstH : ℚ
deriving DecidableEq, Repr

/-- The general compositor's canvas: white-filled `width × height` pixels plus
the photo draw calls in issue order. -/
structure Canvas where
  width : ℤ
  height : ℤ
  ops : List DrawOp
deriving DecidableEq, Repr

/-- The strip compositor's result: the intermediate 2×6 strip canvas (its
draw calls) blitted twice side by side onto the final 4×6 canvas. -/
structure StripComposite where
  canvasWidth : ℤ
  canvasHeight : ℤ
  stripWidth : ℤ
  stripHeight : ℤ
  stripOps : List DrawOp
deriving DecidableEq, Repr

/-- The value produced by a successful composite call. -/
inductive Output
  | gridCanvas (c : Canvas)
  | stripCanvas (s : StripComposite)
deriving DecidableEq, Repr

def Output.width : Output → ℤ
  | .gridCanvas c => c.width
  | .stripCanvas s => s.canvasWidth

def Output.height : Output → ℤ
  | .gridCanvas c => c.height
  | .stripCanvas s => s.canvasHeight

def Output.ops : Output → List DrawOp
  | .gridCanvas c => c.ops
  | .stripCanvas s => s.stripOps

/-- The error taxonomy of the spec: precondition violations (with the thrown
message) and decode failures. -/
inductive CompositeError
  | invalidInput (msg : String)
  | decodeFailure
deriving DecidableEq, Repr

/-- Is the result a synchronously raised precondition (`InvalidInput`)
error? -/
def isInvalidInput : Except CompositeError Output → Bool
  | .error (.invalidInput _) => true
  | _ => false

/-- The `Promise.all` join over the image loads: succeeds with the list of
decoded images iff every photo decodes; any single failure fails the join. -/
def decodeAll : List (Option Img) → Option (List Img)
  | [] => some []
  | none :: _ => none
  | some img :: rest =>
    match decodeAll rest with
    | none => none
    | some imgs => some (img :: imgs)

/-! ## Strip-grid compositor -/

/-- One cell of the strip: photo `index` goes to `cellY = index *
cellHeightPx` in the single column, placed by the contain fit. -/
def stripDrawOp (img : Img) (index : Nat) (cellWidthPx cellHeightPx : ℤ) : DrawOp :=
  let cellY : ℚ := (index : ℚ) * (cellHeightPx : ℚ)
  let place := aspectFitPlace ((img.width : ℚ) / (img.height : ℚ))
    0 cellY (cellWidthPx : ℚ) (cellHeightPx : ℚ)
  ⟨img.width, img.height, place.drawX, place.drawY, place.drawW, place.drawH⟩

/-- `createStripGridComposite(photos, dpi)`. -/
def createStripGridComposite (photosArg : Option (List (Option Img))) (dpi : ℚ) :
    Except CompositeError Output :=
  match photosArg with
  | none => .error (.invalidInput "Strip grid requires exactly 4 photos")
  | some photos =>
    if photos.length ≠ 4 then
      .error (.invalidInput "Strip grid requires exactly 4 photos")
    else
      let stripWidthInches : ℚ := 2
      let stripHeightInches : ℚ := 6
      let canvasWidthInches : ℚ := 4
      let canvasHeightInches : ℚ := 6
      let stripWidthPx := jsRound (stripWidthInches * dpi)
      let stripHeightPx := jsRound (stripHeightInches * dpi)
      let canvasWidthPx := jsRound (canvasWidthInches * dpi)
      let canvasHeightPx := jsRound (canvasHeightInches * dpi)
      let cellHeightInches : ℚ := stripHeightInches / 4
      let cellWidthPx := stripWidthPx
      let cellHeightPx := jsRound (cellHeightInches * dpi)
      match decodeAll photos with
      | none => .error .decodeFailure
      | some images =>
        let stripOps := images.enum.map
          (fun p => stripDrawOp p.2 p.1 cellWidthPx cellHeightPx)
        .ok (.stripCanvas
          ⟨canvasWidthPx, canvasHeightPx, stripWidthPx, stripHeightPx, stripOps⟩)

/-- Pixel semantics of one integer-offset blit of a `sw × sh` source onto a
base pixel map (`ctx.drawImage(canvas, ox, oy)`). -/
def blit {α : Type} (base : ℤ → ℤ → α) (src : ℤ → ℤ → α) (sw sh ox oy : ℤ) :
    ℤ → ℤ → α :=
  fun x y =>
    if ox ≤ x ∧ x < ox + sw ∧ oy ≤ y ∧ y < oy + sh then src (x - ox) (y - oy)
    else base x y

/-- Pixel map of the final 4×6 canvas: white fill, then the rasterized strip
(abstract pixel map `R`) drawn at `x = 0` and again at `x = stripWidthPx`. -/
def stripFinalPixels {α : Type} (s : StripComposite) (R : ℤ → ℤ → α) (white : α) :
    ℤ → ℤ → α :=
  blit (blit (fun _ _ => white) R s.stripWidth s.stripHeight 0 0)
    R s.stripWidth s.stripHeight s.stripWidth 0

/-! ## General grid compositor -/

/-- The per-cell record stored in the `cellDimensions` map. -/
structure CellDims where
  aspect : ℚ
  minWidth : ℚ
  minHeight : ℚ
deriving DecidableEq, Repr

/-- `Map.get` over the insertion-ordered association list. -/
def assocGet (m : List (String × CellDims)) (k : String) : Option CellDims :=
  (m.find? (fun p => p.1 == k)).map (fun p => p.2)

/-- `Map.set` on an existing key: update in place, preserving position. -/
def assocSet (m : List (String × CellDims)) (k : String) (v : CellDims) :
    List (String × CellDims) :=
  m.map (fun p => if p.1 == k then (k, v) else p)

/-- The `images.forEach` loop that groups images by computed cell position
(`col = ⌊index/rows⌋`, `row = index % rows`) and records the aspect and the
nominal space each cell needs. -/
def buildCellDimsAux (rows : Nat) (maxCellWidth : ℚ) :
    Nat → List Img → List (String × CellDims) → List (String × CellDims)
  | _, [], m => m
  | index, img :: rest, m =>
    let row := index % rows
    let col := index / rows
    let cellKey := toString col ++ "-" ++ toString row
    let imgAspect : ℚ := (img.width : ℚ) / (img.height : ℚ)
    let m' :=
      match assocGet m cellKey with
      | none =>
        m ++ [(cellKey,
          { aspect := imgAspect
            minWidth := if imgAspect > 1 then maxCellWidth else maxCellWidth / imgAspect
            minHeight := if imgAspect > 1 then maxCellWidth / imgAspect else maxCellWidth })]
      | some current =>
        assocSet m cellKey { current with aspect := max current.aspect imgAspect }
    buildCellDimsAux rows maxCellWidth (index + 1) rest m'

def buildCellDims (images : List Img) (rows : Nat) (maxCellWidth : ℚ) :
    List (String × CellDims) :=
  buildCellDimsAux rows maxCellWidth 0 images []

/-- The `cellDimensions.forEach` loop deriving the uniform cell size
`(maxCellWidthInches, maxCellHeightInches)`: a wide entry (`aspect > 1`)
maxes the height against `maxCellWidth / aspect`; any other entry maxes the
width against `maxCellWidth * aspect`; both start at the baseline
`maxCellWidth`. -/
def finalCellInches (images : List Img) (rows : Nat) (maxCellWidth : ℚ) : ℚ × ℚ :=
  (buildCellDims images rows maxCellWidth).foldl
    (fun wh kd =>
      if kd.2.aspect > 1 then (wh.1, max wh.2 (maxCellWidth / kd.2.aspect))
      else (max wh.1 (maxCellWidth * kd.2.aspect), wh.2))
    (maxCellWidth, maxCellWidth)

/-- The auto-derivation of `maxCellWidth` from the resolved page size. -/
def autoMaxCellWidth (pc : PageSizeConfig) (cols rows : Nat) : ℚ :=
  let marginInches : ℚ := 1 / 10
  let availableWidth := pc.widthInches - marginInches * ((cols : ℚ) - 1)
  let availableHeight := pc.heightInches - marginInches * ((rows : ℚ) - 1)
  min (availableWidth / (cols : ℚ)) (availableHeight / (rows : ℚ))

/-- `maxCellWidth === null ? derived : maxCellWidth`. -/
def effMaxCellWidth (mcwArg : Option ℚ) (pc : PageSizeConfig) (cols rows : Nat) : ℚ :=
  match mcwArg with
  | some m => m
  | none => autoMaxCellWidth pc cols rows

/-- `grid.id === 'strip-grid' || grid.isStripGrid`. -/
def gridStripRoute (g : Grid) : Bool :=
  g.id == some "strip-grid" || g.isStripGrid

/-- JavaScript truthiness of `grid.cols` / `grid.rows`. -/
def jsTruthyNat : Option Nat → Bool
  | some n => n != 0
  | none => false

/-- The per-photo draw of the general compositor: column-major cell position,
cell origin from margins, and the contain fit into the cell box. -/
def gridDrawOp (img : Img) (index rows : Nat)
    (cellWidthPx cellHeightPx marginSize : ℤ) : DrawOp :=
  let row := index % rows
  let col := index / rows
  let cellX : ℚ := (marginSize : ℚ) + (col : ℚ) * ((cellWidthPx : ℚ) + (marginSize : ℚ))
  let cellY : ℚ := (marginSize : ℚ) + (row : ℚ) * ((cellHeightPx : ℚ) + (marginSize : ℚ))
  let place := aspectFitPlace ((img.width : ℚ) / (img.height : ℚ))
    cellX cellY (cellWidthPx : ℚ) (cellHeightPx : ℚ)
  ⟨img.width, img.height, place.drawX, place.drawY, place.drawW, place.drawH⟩

/-- `createGridComposite(photos, grid, dpi, marginPercent, maxCellWidth)`. -/
def createGridComposite (photosArg : Option (List (Option Img)))
    (grid : Option Grid) (dpi : ℚ) (marginPercent : ℚ) (maxCellWidth : Option ℚ) :
    Except CompositeError Output :=
  match photosArg with
  | none => .error (.invalidInput "No photos provided")
  | some photos =>
    if photos.length = 0 then
      .error (.invalidInput "No photos provided")
    else
      match grid with
      | none => .error (.invalidInput "Invalid grid configuration")
      | some g =>
        if !jsTruthyNat g.cols || !jsTruthyNat g.rows then
          .error (.invalidInput "Invalid grid configuration")
        else if gridStripRoute g then
          if photos.length ≠ 4 then
            .error (.invalidInput
              ("Strip grid requires exactly 4 photos, got " ++ toString photos.length))
          else
            createStripGridComposite (some photos) dpi
        else
          let cols := g.cols.getD 0
          let rows := g.rows.getD 0
          let totalCells := cols * rows
          if photos.length ≠ totalCells then
            .error (.invalidInput
              ("Expected " ++ toString totalCells ++ " photos, got "
                ++ toString photos.length))
          else
            let pageConfig := getPageSizeFromGrid (GridArg.obj g)
            let mcw := effMaxCellWidth maxCellWidth pageConfig cols rows
            match decodeAll photos with
            | none => .error .decodeFailure
            | some images =>
              let wh := finalCellInches images rows mcw
              let cellWidthPx := jsRound (wh.1 * dpi)
              let cellHeightPx := jsRound (wh.2 * dpi)
              let marginSize :=
                jsRound (((min cellWidthPx cellHeightPx : ℤ) : ℚ) * (marginPercent / 100))
              let canvasWidth := marginSize + (cellWidthPx + marginSize) * (cols : ℤ)
              let canvasHeight := marginSize + (cellHeightPx + marginSize) * (rows : ℤ)
              let ops := images.enum.map
                (fun p => gridDrawOp p.2 p.1 rows cellWidthPx cellHeightPx marginSize)
              .ok (.gridCanvas ⟨canvasWidth, canvasHeight, ops⟩)

/-! ## Strip extraction -/

/-- A decoded image with pixel content (for the crop utility, whose claim is
about pixel-level copying). -/
structure PixImg (α : Type) where
  width : ℤ
  height : ℤ
  pix : ℤ → ℤ → α

/-- `extractStripFromComposite(compositeImageDataUrl, dpi)`: a fresh
`stripWidthPx × stripHeightPx` canvas (initially `transparent`), with the
source region `[0,0]–[stripWidthPx,stripHeightPx]` blitted at scale 1 (the
source rectangle clipped to the source image, as canvas `drawImage` does).
A source that fails to decode rejects. -/
def extractStripFromComposite {α : Type} (transparent : α)
    (composite : Option (PixImg α)) (dpi : ℚ) :
    Except CompositeError (PixImg α) :=
  match composite with
  | none => .error .decodeFailure
  | some img =>
    let stripWidthInches : ℚ := 2
    let stripHeightInches : ℚ := 6
    let stripWidthPx := jsRound (stripWidthInches * dpi)
    let stripHeightPx := jsRound (stripHeightInches * dpi)
    .ok
      { width := stripWidthPx
        height := stripHeightPx
        pix := fun x y =>
          if 0 ≤ x ∧ x < min stripWidthPx img.width ∧ 0 ≤ y ∧ y < min stripHeightPx img.height
          then img.pix x y
          else transparent }

/-! ## Arithmetic helper lemmas -/

theorem jsRound_intCast (k : ℤ) : jsRound (k : ℚ) = k := by
  unfold jsRound
  rw [Int.floor_eq_iff]
  constructor
  · linarith
  · linarith

theorem jsRound_natCast (n : ℕ) : jsRound (n : ℚ) = n := by
  have h := jsRound_intCast (n : ℤ)
  rw [← h]; norm_num

theorem jsRound_mono {q r : ℚ} (h : q ≤ r) : jsRound q ≤ jsRound r := by
  unfold jsRound
  exact Int.floor_le_floor (by linarith)

theorem jsRound_nonneg {q : ℚ} (h : 0 ≤ q) : 0 ≤ jsRound q := by
  have := jsRound_mono h
  rwa [show jsRound 0 = 0 from by norm_num [jsRound]] at this

/-! ## Aspect-fit placement lemmas -/

/-- The fit result lies inside its cell box (needs only a nonnegative image
aspect and a positive cell box). -/
theorem aspectFitPlace_fits (a cx cy cw ch : ℚ)
    (ha : 0 ≤ a) (hw : 0 < cw) (hh : 0 < ch) :
    cx ≤ (aspectFitPlace a cx cy cw ch).drawX ∧
    (aspectFitPlace a cx cy cw ch).drawX + (aspectFitPlace a cx cy cw ch).drawW ≤ cx + cw ∧
    cy ≤ (aspectFitPlace a cx cy cw ch).drawY ∧
    (aspectFitPlace a cx cy cw ch).drawY + (aspectFitPlace a cx cy cw ch).drawH ≤ cy + ch ∧
    0 ≤ (aspectFitPlace a cx cy cw ch).drawW ∧
    0 ≤ (aspectFitPlace a cx cy cw ch).drawH := by
  unfold aspectFitPlace
  by_cases hgt : a > cw / ch
  · have ha0 : 0 < a := lt_of_le_of_lt (div_nonneg hw.le hh.le) hgt
    have hlt : cw / a < ch := by
      rw [div_lt_iff₀ ha0]
      calc cw = (cw / ch) * ch := by field_simp
        _ < a * ch := by
            exact mul_lt_mul_of_pos_right hgt hh
        _ = ch * a := mul_comm a ch
    have hdh : 0 ≤ cw / a := div_nonneg hw.le ha0.le
    simp only [if_pos hgt]
    refine ⟨le_refl _, by linarith, by linarith, by linarith, hw.le, hdh⟩
  · push_neg at hgt
    have hle : ch * a ≤ cw := by
      calc ch * a ≤ ch * (cw / ch) := by
            exact mul_le_mul_of_nonneg_left hgt hh.le
        _ = cw := by field_simp
    have hdw : 0 ≤ ch * a := mul_nonneg hh.le ha
    simp only [if_neg (not_lt.mpr hgt)]
    refine ⟨by linarith, by linarith, le_refl _, by linarith, hdw, hh.le⟩

/-- The fit result preserves the image aspect ratio exactly. -/
theorem aspectFitPlace_ratio (a cx cy cw ch : ℚ)
    (ha : 0 < a) (hw : 0 < cw) (hh : 0 < ch) :
    (aspectFitPlace a cx cy cw ch).drawW / (aspectFitPlace a cx cy cw ch).drawH = a ∧
    0 < (aspectFitPlace a cx cy cw ch).drawW ∧
    0 < (aspectFitPlace a cx cy cw ch).drawH := by
  unfold aspectFitPlace
  by_cases hgt : a > cw / ch
  · simp only [if_pos hgt]
    refine ⟨?_, hw, div_pos hw ha⟩
    rw [div_div_eq_mul_div, mul_comm, mul_div_assoc, div_self (ne_of_gt hw), mul_one]
  · push_neg at hgt
    simp only [if_neg (not_lt.mpr hgt)]
    refine ⟨?_, mul_pos hh ha, hh⟩
    exact mul_div_cancel_left₀ a (ne_of_gt hh)

/-! ## Page-size snapping: the fold computes the first argmin -/

/-- The `standardSizes.forEach` fold returns the entry of minimal Manhattan
distance, and — because only a strictly smaller distance replaces the current
entry — the FIRST such entry in list order. -/
theorem closestStd_spec (wi hi : ℚ) :
    ∃ k : Fin 4, closestStd wi hi = stdAt k ∧
      (∀ j : Fin 4, sizeDiff wi hi (stdAt k) ≤ sizeDiff wi hi (stdAt j)) ∧
      (∀ j : Fin 4, j < k → sizeDiff wi hi (stdAt k) < sizeDiff wi hi (stdAt j)) := by
  by_cases h1 : sizeDiff wi hi ⟨4, 6, "4x6"⟩ < sizeDiff wi hi ⟨2, 4, "2x4"⟩
  · by_cases h2 : sizeDiff wi hi ⟨5, 7, "5x7"⟩ < sizeDiff wi hi ⟨4, 6, "4x6"⟩
    · by_cases h3 : sizeDiff wi hi ⟨8, 10, "8x10"⟩ < sizeDiff wi hi ⟨5, 7, "5x7"⟩
      · refine ⟨3, ?_, ?_, ?_⟩
        · simp [closestStd, standardSizes, stdAt, h1, h2, h3]
        · intro j; fin_cases j <;> simp [stdAt] <;> linarith
        · intro j hj; fin_cases j <;> simp_all [stdAt] <;> linarith
      · refine ⟨2, ?_, ?_, ?_⟩
        · simp [closestStd, standardSizes, stdAt, h1, h2, h3]
        · intro j; fin_cases j <;> simp [stdAt] <;> linarith
        · intro j hj; fin_cases j <;> simp_all [stdAt] <;> linarith
    · by_cases h3 : sizeDiff wi hi ⟨8, 10, "8x10"⟩ < sizeDiff wi hi ⟨4, 6, "4x6"⟩
      · refine ⟨3, ?_, ?_, ?_⟩
        · simp [closestStd, standardSizes, stdAt, h1, h2, h3]
        · intro j; fin_cases j <;> simp [stdAt] <;> linarith
        · intro j hj; fin_cases j <;> simp_all [stdAt] <;> linarith
      · refine ⟨1, ?_, ?_, ?_⟩
        · simp [closestStd, standardSizes, stdAt, h1, h2, h3]
        · intro j; fin_cases j <;> simp [stdAt] <;> linarith
        · intro j hj; fin_cases j <;> simp_all [stdAt] <;> linarith
  · by_cases h2 : sizeDiff wi hi ⟨5, 7, "5x7"⟩ < sizeDiff wi hi ⟨2, 4, "2x4"⟩
    · by_cases h3 : sizeDiff wi hi ⟨8, 10, "8x10"⟩ < sizeDiff wi hi ⟨5, 7, "5x7"⟩
      · refine ⟨3, ?_, ?_, ?_⟩
        · simp [closestStd, standardSizes, stdAt, h1, h2, h3]
        · intro j; fin_cases j <;> simp [stdAt] <;> linarith
        · intro j hj; fin_cases j <;> simp_all [stdAt] <;> linarith
      · refine ⟨2, ?_, ?_, ?_⟩
        · simp [closestStd, standardSizes, stdAt, h1, h2, h3]
        · intro j; fin_cases j <;> simp [stdAt] <;> linarith
        · intro j hj; fin_cases j <;> simp_all [stdAt] <;> linarith
    · by_cases h3 : sizeDiff wi hi ⟨8, 10, "8x10"⟩ < sizeDiff wi hi ⟨2, 4, "2x4"⟩
      · refine ⟨3, ?_, ?_, ?_⟩
        · simp [closestStd, standardSizes, stdAt, h1, h2, h3]
        · intro j; fin_cases j <;> simp [stdAt] <;> linarith
        · intro j hj; fin_cases j <;> simp_all [stdAt] <;> linarith
      · refine ⟨0, ?_, ?_, ?_⟩
        · simp [closestStd, standardSizes, stdAt, h1, h2, h3]
        · intro j; fin_cases j <;> simp [stdAt] <;> linarith
        · intro j hj; fin_cases j <;> simp_all [stdAt]

/-! ## The uniform cell size always collapses to the baseline -/

theorem assocGet_mem {m : List (String × CellDims)} {k : String} {v : CellDims}
    (h : assocGet m k = some v) : ∃ p ∈ m, p.2 = v := by
  unfold assocGet at h
  cases hf : m.find? (fun p => p.1 == k) with
  | none => rw [hf] at h; simp at h
  | some p =>
    rw [hf] at h
    have hv : p.2 = v := by simpa using h
    exact ⟨p, List.mem_of_find?_eq_some hf, hv⟩

/-- Every aspect stored in the `cellDimensions` map is nonnegative. -/
theorem buildCellDimsAux_aspect_nonneg (rows : Nat) (mcw : ℚ) (images : List Img) :
    ∀ (index : Nat) (m : List (String × CellDims)),
      (∀ d ∈ m, 0 ≤ d.2.aspect) →
      ∀ d ∈ buildCellDimsAux rows mcw index images m, 0 ≤ d.2.aspect := by
  induction images with
  | nil => intro index m hm d hd; rw [buildCellDimsAux] at hd; exact hm d hd
  | cons img rest ih =>
    intro index m hm d hd
    rw [buildCellDimsAux] at hd
    refine ih (index + 1) _ ?_ d hd
    intro e he
    set ck := toString (index / rows) ++ "-" ++ toString (index % rows) with hck
    have haq : (0 : ℚ) ≤ (img.width : ℚ) / (img.height : ℚ) :=
      div_nonneg (Nat.cast_nonneg _) (Nat.cast_nonneg _)
    rcases hfind : assocGet m ck with _ | cur
    · rw [hfind] at he
      rcases List.mem_append.mp he with hm1 | hm2
      · exact hm e hm1
      · rcases List.mem_singleton.mp hm2 with rfl
        exact haq
    · rw [hfind] at he
      unfold assocSet at he
      rcases List.mem_map.mp he with ⟨p, hp, hpe⟩
      by_cases hpk : (p.1 == ck) = true
      · rw [if_pos hpk] at hpe
        obtain ⟨pp, hpp, hpv⟩ := assocGet_mem hfind
        have hcur : 0 ≤ cur.aspect := hpv ▸ hm pp hpp
        subst hpe
        simp only
        exact le_max_of_le_left hcur
      · rw [if_neg hpk] at hpe
        subst hpe
        exact hm p hp

theorem foldl_cell_max (mcw : ℚ) (h0 : 0 ≤ mcw) :
    ∀ (l : List (String × CellDims)), (∀ d ∈ l, 0 ≤ d.2.aspect) →
      l.foldl
        (fun wh kd =>
          if kd.2.aspect > 1 then (wh.1, max wh.2 (mcw / kd.2.aspect))
          else (max wh.1 (mcw * kd.2.aspect), wh.2))
        (mcw, mcw) = (mcw, mcw) := by
  intro l
  induction l with
  | nil => intro _; simp
  | cons kd rest ih =>
    intro hl
    have hkd : 0 ≤ kd.2.aspect := hl kd (List.mem_cons_self _ _)
    have hrest : ∀ d ∈ rest, 0 ≤ d.2.aspect := fun d hd => hl d (List.mem_cons_of_mem _ hd)
    rw [List.foldl_cons]
    by_cases hgt : kd.2.aspect > 1
    · rw [if_pos hgt]
      dsimp only
      rw [max_eq_left (div_le_self h0 (by linarith))]
      exact ih hrest
    · rw [if_neg hgt]
      dsimp only
      push_neg at hgt
      rw [max_eq_left (mul_le_of_le_one_right h0 hgt)]
      exact ih hrest

/-- The `maxCellWidthInches`/`maxCellHeightInches` maximisation never moves
off the baseline: `maxCellWidth / aspect ≤ maxCellWidth` for wide entries and
`maxCellWidth * aspect ≤ maxCellWidth` for the rest, so the uniform cell is
always exactly `maxCellWidth × maxCellWidth`. -/
theorem finalCellInches_eq (images : List Img) (rows : Nat) (mcw : ℚ) (h0 : 0 ≤ mcw) :
    finalCellInches images rows mcw = (mcw, mcw) := by
  unfold finalCellInches
  apply foldl_cell_max mcw h0
  apply buildCellDimsAux_aspect_nonneg
  intro d hd
  simp at hd

/-! ## Decode-join lemmas -/

theorem decodeAll_eq_none_iff (photos : List (Option Img)) :
    decodeAll photos = none ↔ none ∈ photos := by
  induction photos with
  | nil => simp [decodeAll]
  | cons p rest ih =>
    cases p with
    | none => simp [decodeAll]
    | some img =>
      rw [decodeAll]
      cases hr : decodeAll rest with
      | none => simpa [hr] using ih.mp hr
      | some imgs =>
        have : ¬ none ∈ rest := fun hmem => by
          have := ih.mpr hmem
          rw [hr] at this
          exact Option.noConfusion this
        simp [hr, this]

theorem decodeAll_some_spec (photos : List (Option Img)) (images : List Img)
    (h : decodeAll photos = some images) :
    images.length = photos.length ∧
    ∀ i (h1 : i < photos.length) (h2 : i < images.length),
      photos.get ⟨i, h1⟩ = some (images.get ⟨i, h2⟩) := by
  induction photos generalizing images with
  | nil =>
    rw [decodeAll] at h
    obtain rfl : ([] : List Img) = images := by injection h
    simp
  | cons p rest ih =>
    cases p with
    | none => rw [decodeAll] at h; exact Option.noConfusion h
    | some img =>
      rw [decodeAll] at h
      cases hr : decodeAll rest with
      | none => rw [hr] at h; exact Option.noConfusion h
      | some imgs =>
        rw [hr] at h
        obtain rfl : img :: imgs = images := by injection h
        obtain ⟨hlen, hget⟩ := ih imgs hr
        refine ⟨by simp [hlen], ?_⟩
        intro i h1 h2
        cases i with
        | zero => simp
        | succ n =>
          simp only [List.length_cons, Nat.succ_lt_succ_iff] at h1 h2
          simpa using hget n h1 h2

theorem decodeAll_map_some (images : List Img) :
    decodeAll (images.map some) = some images := by
  induction images with
  | nil => simp [decodeAll]
  | cons img rest ih => rw [List.map_cons, decodeAll, ih]

/-! ## Success-path normal forms of the two compositors -/

theorem createStrip_ok (photos : List (Option Img)) (images : List Img) (dpi : ℚ)
    (h4 : photos.length = 4) (hdec : decodeAll photos = some images) :
    createStripGridComposite (some photos) dpi =
      .ok (.stripCanvas
        ⟨jsRound (4 * dpi), jsRound (6 * dpi), jsRound (2 * dpi), jsRound (6 * dpi),
         images.enum.map
           (fun p => stripDrawOp p.2 p.1 (jsRound (2 * dpi)) (jsRound (6 / 4 * dpi)))⟩) := by
  simp [createStripGridComposite, h4, hdec]

/-- Drawing the identical strip at `x = 0` and `x = stripWidth` makes the
right half a pixel-for-pixel copy of the left half, for any rasterization of
the strip. -/
theorem stripFinalPixels_halves {α : Type} (s : StripComposite) (R : ℤ → ℤ → α)
    (white : α) (hsw : 0 < s.stripWidth) (x y : ℤ) (hx0 : 0 ≤ x) (hx : x < s.stripWidth) :
    stripFinalPixels s R white (x + s.stripWidth) y = stripFinalPixels s R white x y := by
  unfold stripFinalPixels blit
  have hxx : x + s.stripWidth - s.stripWidth = x := by ring
  simp only [sub_zero, add_zero, zero_add]
  split_ifs <;> first | rfl | (exfalso; omega) | (rw [hxx])

theorem createGrid_ok (photos : List (Option Img)) (images : List Img) (g : Grid)
    (c r : Nat) (dpi mp : ℚ) (mcwArg : Option ℚ)
    (hc : g.cols = some c) (hr : g.rows = some r) (hc0 : c ≠ 0) (hr0 : r ≠ 0)
    (hroute : gridStripRoute g = false) (hlen : photos.length = c * r)
    (hdec : decodeAll photos = some images)
    (hmcw : 0 ≤ effMaxCellWidth mcwArg (getPageSizeFromGrid (GridArg.obj g)) c r) :
    createGridComposite (some photos) (some g) dpi mp mcwArg =
      (let mcw := effMaxCellWidth mcwArg (getPageSizeFromGrid (GridArg.obj g)) c r
       let cpx := jsRound (mcw * dpi)
       let m := jsRound ((cpx : ℚ) * (mp / 100))
       .ok (.gridCanvas
         ⟨m + (cpx + m) * (c : ℤ), m + (cpx + m) * (r : ℤ),
          images.enum.map (fun p => gridDrawOp p.2 p.1 r cpx cpx m)⟩)) := by
  have hne : c * r ≠ 0 := Nat.mul_ne_zero hc0 hr0
  simp only [createGridComposite, hc, hr, hroute, hlen, hne, Option.getD_some,
    jsTruthyNat, hc0, hr0, hdec, finalCellInches_eq _ _ _ hmcw, min_self,
    if_false, Bool.false_eq_true, ite_false]
  simp [hc0, hr0, Nat.mul_ne_zero hc0 hr0]

/-! ## List indexing helpers for the draw-op traces -/

theorem enumMap_get {β : Type} (images : List Img) (f : Nat × Img → β) (i : Nat)
    (hi : i < (images.enum.map f).length) (hi2 : i < images.length) :
    (images.enum.map f).get ⟨i, hi⟩ = f (i, images.get ⟨i, hi2⟩) := by
  simp [List.get_eq_getElem, List.getElem_map, List.getElem_enum]

theorem enumMap_length {β : Type} (images : List Img) (f : Nat × Img → β) :
    (images.enum.map f).length = images.length := by
  simp [List.length_map, List.enum_length]

/-- Rectangle containment: the placement lies inside the cell box rooted at
`(cx, cy)` with extent `cw × ch`. -/
def insideBox (p : Placement) (cx cy cw ch : ℚ) : Prop :=
  cx ≤ p.drawX ∧ p.drawX + p.drawW ≤ cx + cw ∧
  cy ≤ p.drawY ∧ p.drawY + p.drawH ≤ cy + ch

theorem aspectFitPlace_insideBox (a cx cy cw ch : ℚ)
    (ha : 0 ≤ a) (hw : 0 < cw) (hh : 0 < ch) :
    insideBox (aspectFitPlace a cx cy cw ch) cx cy cw ch := by
  obtain ⟨h1, h2, h3, h4, _, _⟩ := aspectFitPlace_fits a cx cy cw ch ha hw hh
  exact ⟨h1, h2, h3, h4⟩

/-! ## Claim theorems -/

/-- C4 (confirmed): for every positive image aspect ratio and every cell box
with positive width and height, the aspect-fit placement is fully contained
in the cell box, `drawWidth / drawHeight` equals the image aspect exactly,
and the branch shape is as described: wider-than-cell images are drawn at
full cell width, flush left, vertically centered; all others at full cell
height, flush top, horizontally centered. No cropping occurs (the draw always
uses the full source rectangle, see `stripDrawOp`/`gridDrawOp`). -/
theorem claim4_aspect_fit (imgAspect cellX cellY cellW cellH : ℚ)
    (ha : 0 < imgAspect) (hw : 0 < cellW) (hh : 0 < cellH) :
    insideBox (aspectFitPlace imgAspect cellX cellY cellW cellH) cellX cellY cellW cellH ∧
    (aspectFitPlace imgAspect cellX cellY cellW cellH).drawW /
      (aspectFitPlace imgAspect cellX cellY cellW cellH).drawH = imgAspect ∧
    (imgAspect > cellW / cellH →
      aspectFitPlace imgAspect cellX cellY cellW cellH =
        ⟨cellX, cellY + (cellH - cellW / imgAspect) / 2, cellW, cellW / imgAspect⟩) ∧
    (¬ imgAspect > cellW / cellH →
      aspectFitPlace imgAspect cellX cellY cellW cellH =
        ⟨cellX + (cellW - cellH * imgAspect) / 2, cellY, cellH * imgAspect, cellH⟩) := by
  obtain ⟨hratio, _, _⟩ := aspectFitPlace_ratio imgAspect cellX cellY cellW cellH ha hw hh
  refine ⟨aspectFitPlace_insideBox imgAspect cellX cellY cellW cellH ha.le hw hh,
    hratio, ?_, ?_⟩
  · intro hgt
    simp only [aspectFitPlace, if_pos hgt]
  · intro hle
    simp only [aspectFitPlace, if_neg hle]

theorem claim4_aspect_fit_witness :
    insideBox (aspectFitPlace 2 0 0 100 100) 0 0 100 100 ∧
    (aspectFitPlace 2 0 0 100 100).drawW / (aspectFitPlace 2 0 0 100 100).drawH = 2 ∧
    aspectFitPlace 2 0 0 100 100 = ⟨0, 25, 100, 50⟩ := by
  obtain ⟨hbox, hratio, hwide, _⟩ :=
    claim4_aspect_fit 2 0 0 100 100 (by norm_num) (by norm_num) (by norm_num)
  refine ⟨hbox, hratio, ?_⟩
  rw [hwide (by norm_num)]
  norm_num [Placement.mk.injEq]

/-- C6 (confirmed): the page-size resolver is total (a Lean function) and
side-effect free; `null` and the falsy grid arguments give the 4×6 default;
an exact catalog hit returns the cataloged entry (all of which are 4×6);
otherwise the derived size `(2·cols + 0.1·(cols−1), 3·rows + 0.1·(rows−1))`
is snapped to the first standard size of minimal Manhattan distance, ties
resolving to the earliest entry of the fixed list. -/
theorem claim6_page_size_resolver :
    getPageSizeFromGrid GridArg.null = ⟨4, 6, "4x6"⟩ ∧
    (∀ e ∈ gridToPageSize, e.2 = ⟨4, 6, "4x6"⟩) ∧
    (∀ (g : GridArg) (cfg : PageSizeConfig),
      catalogLookup (gridIdOf g) = some cfg → getPageSizeFromGrid g = cfg) ∧
    (∀ (g : Grid) (c r : Nat), g.cols = some c → g.rows = some r → c ≠ 0 → r ≠ 0 →
      catalogLookup g.id = none →
      getPageSizeFromGrid (GridArg.obj g) =
        stdToConfig (closestStd (2 * (c : ℚ) + 1 / 10 * ((c : ℚ) - 1))
          (3 * (r : ℚ) + 1 / 10 * ((r : ℚ) - 1)))) ∧
    (∀ wi hi : ℚ, ∃ k : Fin 4, closestStd wi hi = stdAt k ∧
      (∀ j : Fin 4, sizeDiff wi hi (stdAt k) ≤ sizeDiff wi hi (stdAt j)) ∧
      (∀ j : Fin 4, j < k → sizeDiff wi hi (stdAt k) < sizeDiff wi hi (stdAt j))) := by
  refine ⟨rfl, by decide, ?_, ?_, fun wi hi => closestStd_spec wi hi⟩
  · intro g cfg h
    cases g with
    | null => simp [catalogLookup, gridIdOf] at h
    | str s =>
      by_cases hs : s = ""
      · subst hs
        rw [show catalogLookup (gridIdOf (GridArg.str "")) = none from by decide] at h
        exact Option.noConfusion h
      · simp [getPageSizeFromGrid, jsFalsyArg, hs, h]
    | obj g => simp [getPageSizeFromGrid, jsFalsyArg, h]
  · intro g c r hc hr hc0 hr0 hcat
    simp [getPageSizeFromGrid, jsFalsyArg, gridIdOf, hcat, gridColsOf, gridRowsOf,
      jsOrNat, hc, hr, hc0, hr0]

theorem claim6_page_size_resolver_witness :
    getPageSizeFromGrid (GridArg.obj ⟨some "4x6-4cut", some 2, some 2, false⟩) =
      ⟨4, 6, "4x6"⟩ ∧
    getPageSizeFromGrid (GridArg.obj ⟨some "zz-custom", some 3, some 3, false⟩) =
      ⟨8, 10, "8x10"⟩ := by
  obtain ⟨h1, h2, h3, h4, h5⟩ := claim6_page_size_resolver
  constructor
  · exact h3 _ _ (by decide)
  · rw [h4 ⟨some "zz-custom", some 3, some 3, false⟩ 3 3 rfl rfl
      (by decide) (by decide) (by decide)]
    norm_num [closestStd, standardSizes, sizeDiff, stdToConfig,
      abs_of_nonneg, abs_of_nonpos]

/-- C10 (counterexample): the claim quantifies over EVERY string grid id
absent from the catalog, but the empty string is falsy in JavaScript, so
`getPageSizeFromGrid('')` takes the `!grid` early return and yields the 4×6
default, not the 2×4 snap. -/
theorem claim10_counterexample :
    catalogLookup (some "") = none ∧
    getPageSizeFromGrid (GridArg.str "") = ⟨4, 6, "4x6"⟩ ∧
    ¬ getPageSizeFromGrid (GridArg.str "") = ⟨2, 4, "2x4"⟩ := by
  refine ⟨by decide, rfl, ?_⟩
  intro h
  have : (4 : ℚ) = 2 := congrArg PageSizeConfig.widthInches h
  norm_num at this

/-- C10 (amended, proved): in the no-catalog-match fallback a missing or zero
`cols`/`rows` is silently replaced by 1, and every NON-EMPTY string grid id
absent from the catalog (cols and rows unreadable, both default to 1, derived
size 2in × 3in) resolves to the 2×4 standard size instead of the 4×6
default; the empty string instead hits the falsy-argument default. -/
theorem claim10_amended_fallback :
    (∀ s : String, s ≠ "" → catalogLookup (some s) = none →
      getPageSizeFromGrid (GridArg.str s) = ⟨2, 4, "2x4"⟩) ∧
    (∀ g : Grid, catalogLookup g.id = none → (g.cols = none ∨ g.cols = some 0) →
      getPageSizeFromGrid (GridArg.obj g) =
        getPageSizeFromGrid (GridArg.obj { g with cols := some 1 })) ∧
    (∀ g : Grid, catalogLookup g.id = none → (g.rows = none ∨ g.rows = some 0) →
      getPageSizeFromGrid (GridArg.obj g) =
        getPageSizeFromGrid (GridArg.obj { g with rows := some 1 })) := by
  refine ⟨?_, ?_, ?_⟩
  · intro s hs hcat
    simp only [getPageSizeFromGrid, jsFalsyArg, gridIdOf] at *
    rw [hcat]
    simp [hs, gridColsOf, gridRowsOf]
    norm_num [closestStd, standardSizes, sizeDiff, stdToConfig,
      abs_of_nonneg, abs_of_nonpos]
  · intro g hcat hcols
    rcases hcols with h | h <;>
      simp [getPageSizeFromGrid, jsFalsyArg, gridIdOf, hcat, gridColsOf,
        gridRowsOf, jsOrNat, h]
  · intro g hcat hrows
    rcases hrows with h | h <;>
      simp [getPageSizeFromGrid, jsFalsyArg, gridIdOf, hcat, gridColsOf,
        gridRowsOf, jsOrNat, h]

theorem claim10_amended_fallback_witness :
    getPageSizeFromGrid (GridArg.str "zz-custom") = ⟨2, 4, "2x4"⟩ ∧
    getPageSizeFromGrid (GridArg.obj ⟨some "zz", none, some 2, false⟩) =
      getPageSizeFromGrid (GridArg.obj ⟨some "zz", some 1, some 2, false⟩) := by
  obtain ⟨h1, h2, _⟩ := claim10_amended_fallback
  exact ⟨h1 _ (by decide) (by decide), h2 ⟨some "zz", none, some 2, false⟩ (by decide) (Or.inl rfl)⟩

/-- C9 (confirmed): for every decodable composite and any dpi, the strip
extraction returns a `round(2·dpi) × round(6·dpi)` bitmap whose in-range
pixels are copied verbatim (unit scale, source rectangle = destination
rectangle) from the source's region `[0,0]–[stripWidthPx,stripHeightPx]`,
and a source that cannot be decoded yields the decode-failure error. -/
theorem claim9_extract_strip {α : Type} (t : α) (img : PixImg α) (dpi : ℚ) :
    (∃ out, extractStripFromComposite t (some img) dpi = .ok out ∧
      out.width = jsRound (2 * dpi) ∧ out.height = jsRound (6 * dpi) ∧
      ∀ x y : ℤ, 0 ≤ x → x < jsRound (2 * dpi) → 0 ≤ y → y < jsRound (6 * dpi) →
        x < img.width → y < img.height → out.pix x y = img.pix x y) ∧
    extractStripFromComposite t (none : Option (PixImg α)) dpi =
      .error .decodeFailure := by
  refine ⟨⟨_, rfl, rfl, rfl, ?_⟩, rfl⟩
  intro x y h1 h2 h3 h4 h5 h6
  show (if 0 ≤ x ∧ x < min (jsRound (2 * dpi)) img.width ∧
          0 ≤ y ∧ y < min (jsRound (6 * dpi)) img.height
        then img.pix x y else t) = img.pix x y
  rw [if_pos ⟨h1, lt_min h2 h5, h3, lt_min h4 h6⟩]

theorem claim9_extract_strip_witness :
    ∃ out, extractStripFromComposite (0 : ℤ)
        (some ⟨1200, 1800, fun x y => x + 1000 * y⟩) 300 = .ok out ∧
      out.width = 600 ∧ out.height = 1800 ∧ out.pix 5 7 = 5 + 1000 * 7 := by
  obtain ⟨⟨out, heq, hw', hh', hpix⟩, _⟩ :=
    claim9_extract_strip (0 : ℤ) (⟨1200, 1800, fun x y => x + 1000 * y⟩ : PixImg ℤ) 300
  have h2 : jsRound (2 * (300 : ℚ)) = 600 := by
    rw [show (2 * (300 : ℚ)) = ((600 : ℤ) : ℚ) from by norm_num, jsRound_intCast]
  have h6 : jsRound (6 * (300 : ℚ)) = 1800 := by
    rw [show (6 * (300 : ℚ)) = ((1800 : ℤ) : ℚ) from by norm_num, jsRound_intCast]
  refine ⟨out, heq, by rw [hw', h2], by rw [hh', h6], ?_⟩
  exact hpix 5 7 (by norm_num) (by rw [h2]; norm_num) (by norm_num)
    (by rw [h6]; norm_num) (by norm_num) (by norm_num)

/-- C2 (counterexample): the claim asserts that for SOME inputs with extreme
aspect ratios a final cell dimension exceeds the baseline
`maxCellWidthInches`. It never does: the height candidate
`maxCellWidth / aspect` (for `aspect > 1`) and the width candidate
`maxCellWidth * aspect` (for `aspect ≤ 1`) are both bounded by the baseline,
so the component-wise maximum is always exactly the baseline pair. -/
theorem claim2_counterexample :
    (∃ (images : List Img) (rows : Nat) (mcw : ℚ),
        0 < mcw ∧ (mcw < (finalCellInches images rows mcw).1 ∨
                   mcw < (finalCellInches images rows mcw).2)) = False := by
  apply eq_false
  rintro ⟨images, rows, mcw, hpos, hlt | hlt⟩ <;>
    rw [finalCellInches_eq images rows mcw hpos.le] at hlt <;>
    exact lt_irrefl _ hlt

/-- C2 (amended, proved): the final uniform cell size is the component-wise
maximum of the tracked candidates and the baseline, but since every candidate
is at most the baseline, the cell is always exactly
`maxCellWidth × maxCellWidth` — cells are never enlarged beyond the nominal
size — and every photo still fits its (square) cell at contain scale without
cropping. -/
theorem claim2_amended_cell_size (images : List Img) (rows : Nat) (mcw dpi : ℚ)
    (hmcw : 0 ≤ mcw) (hpx : 0 < jsRound (mcw * dpi)) :
    finalCellInches images rows mcw = (mcw, mcw) ∧
    ∀ img ∈ images, ∀ cx cy : ℚ,
      insideBox
        (aspectFitPlace ((img.width : ℚ) / (img.height : ℚ)) cx cy
          ((jsRound (mcw * dpi) : ℤ) : ℚ) ((jsRound (mcw * dpi) : ℤ) : ℚ))
        cx cy ((jsRound (mcw * dpi) : ℤ) : ℚ) ((jsRound (mcw * dpi) : ℤ) : ℚ) := by
  refine ⟨finalCellInches_eq images rows mcw hmcw, ?_⟩
  intro img _ cx cy
  have hq : (0 : ℚ) < ((jsRound (mcw * dpi) : ℤ) : ℚ) := by
    exact_mod_cast hpx
  exact aspectFitPlace_insideBox _ cx cy _ _
    (div_nonneg (Nat.cast_nonneg _) (Nat.cast_nonneg _)) hq hq

theorem claim2_amended_cell_size_witness :
    finalCellInches [⟨1000, 10⟩, ⟨10, 1000⟩] 2 (39 / 20) = (39 / 20, 39 / 20) ∧
    insideBox
      (aspectFitPlace ((1000 : ℚ) / 10) 0 0 585 585) 0 0 585 585 := by
  have hpx : 0 < jsRound ((39 / 20 : ℚ) * 300) := by
    rw [show ((39 / 20 : ℚ) * 300) = ((585 : ℤ) : ℚ) from by norm_num, jsRound_intCast]
    norm_num
  obtain ⟨hcell, hfit⟩ :=
    claim2_amended_cell_size [⟨1000, 10⟩, ⟨10, 1000⟩] 2 (39 / 20) 300 (by norm_num) hpx
  refine ⟨hcell, ?_⟩
  have h585 : ((jsRound ((39 / 20 : ℚ) * 300) : ℤ) : ℚ) = 585 := by
    rw [show ((39 / 20 : ℚ) * 300) = ((585 : ℤ) : ℚ) from by norm_num, jsRound_intCast]
    norm_num
  have := hfit ⟨1000, 10⟩ (by simp) 0 0
  rw [h585] at this
  simpa using this

/-! ## Per-op geometry and failure paths -/

theorem stripDrawOp_spec (img : Img) (i : Nat) (cw ch : ℤ)
    (hw : 0 < cw) (hh : 0 < ch) :
    (stripDrawOp img i cw ch).srcW = img.width ∧
    (stripDrawOp img i cw ch).srcH = img.height ∧
    insideBox
      ⟨(stripDrawOp img i cw ch).dstX, (stripDrawOp img i cw ch).dstY,
       (stripDrawOp img i cw ch).dstW, (stripDrawOp img i cw ch).dstH⟩
      0 ((i : ℚ) * (ch : ℚ)) (cw : ℚ) (ch : ℚ) := by
  refine ⟨rfl, rfl, ?_⟩
  have hwq : (0 : ℚ) < (cw : ℚ) := by exact_mod_cast hw
  have hhq : (0 : ℚ) < (ch : ℚ) := by exact_mod_cast hh
  exact aspectFitPlace_insideBox _ 0 ((i : ℚ) * (ch : ℚ)) _ _
    (div_nonneg (Nat.cast_nonneg _) (Nat.cast_nonneg _)) hwq hhq

theorem gridDrawOp_spec (img : Img) (i r : Nat) (cw ch m : ℤ)
    (hw : 0 < cw) (hh : 0 < ch) :
    (gridDrawOp img i r cw ch m).srcW = img.width ∧
    (gridDrawOp img i r cw ch m).srcH = img.height ∧
    insideBox
      ⟨(gridDrawOp img i r cw ch m).dstX, (gridDrawOp img i r cw ch m).dstY,
       (gridDrawOp img i r cw ch m).dstW, (gridDrawOp img i r cw ch m).dstH⟩
      ((m : ℚ) + ((i / r : ℕ) : ℚ) * ((cw : ℚ) + (m : ℚ)))
      ((m : ℚ) + ((i % r : ℕ) : ℚ) * ((ch : ℚ) + (m : ℚ)))
      (cw : ℚ) (ch : ℚ) := by
  refine ⟨rfl, rfl, ?_⟩
  have hwq : (0 : ℚ) < (cw : ℚ) := by exact_mod_cast hw
  have hhq : (0 : ℚ) < (ch : ℚ) := by exact_mod_cast hh
  exact aspectFitPlace_insideBox _ _ _ _ _
    (div_nonneg (Nat.cast_nonneg _) (Nat.cast_nonneg _)) hwq hhq

theorem createStrip_decodeFailure (photos : List (Option Img)) (dpi : ℚ)
    (h4 : photos.length = 4) (hdec : decodeAll photos = none) :
    createStripGridComposite (some photos) dpi = .error .decodeFailure := by
  simp [createStripGridComposite, h4, hdec]

theorem createGrid_decodeFailure (photos : List (Option Img)) (g : Grid)
    (c r : Nat) (dpi mp : ℚ) (mcwArg : Option ℚ)
    (hc : g.cols = some c) (hr : g.rows = some r) (hc0 : c ≠ 0) (hr0 : r ≠ 0)
    (hroute : gridStripRoute g = false) (hlen : photos.length = c * r)
    (hdec : decodeAll photos = none) :
    createGridComposite (some photos) (some g) dpi mp mcwArg =
      .error .decodeFailure := by
  have hne : c * r ≠ 0 := Nat.mul_ne_zero hc0 hr0
  simp [createGridComposite, hc, hr, hroute, hlen, hne, jsTruthyNat, hc0, hr0, hdec]

theorem createGrid_stripRoute (photos : List (Option Img)) (g : Grid)
    (dpi mp : ℚ) (mcwArg : Option ℚ)
    (hcols : jsTruthyNat g.cols = true) (hrows : jsTruthyNat g.rows = true)
    (hroute : gridStripRoute g = true) (h4 : photos.length = 4) :
    createGridComposite (some photos) (some g) dpi mp mcwArg =
      createStripGridComposite (some photos) dpi := by
  simp [createGridComposite, hcols, hrows, hroute, h4]

theorem jsRound_cellHeight_pos (n : ℕ) (hn : 0 < n) :
    0 < jsRound (6 / 4 * (n : ℚ)) := by
  have h1 : (1 : ℚ) ≤ (n : ℚ) := by exact_mod_cast hn
  have h32 : (3 / 2 : ℚ) ≤ 6 / 4 * (n : ℚ) := by nlinarith
  have := jsRound_mono h32
  have h2 : jsRound (3 / 2 : ℚ) = 2 := by
    unfold jsRound
    norm_num
  omega

/-- C1 (counterexample): for the cataloged 1×1 grid (resolved page size
4×6in) at 300 dpi with one square photo, the composite canvas is
1248 × 1248 px — `margin + (cellPx + margin) · cols` per axis — not the
claimed `round(4·300) × round(6·300) = 1200 × 1800`, and no aspect-ratio
enlargement is involved (the photo is square). -/
theorem claim1_counterexample :
    getPageSizeFromGrid (GridArg.obj ⟨some "4x6-single", some 1, some 1, false⟩) =
      ⟨4, 6, "4x6"⟩ ∧
    jsRound ((4 : ℚ) * 300) = 1200 ∧ jsRound ((6 : ℚ) * 300) = 1800 ∧
    (createGridComposite (some [some ⟨600, 600⟩])
        (some ⟨some "4x6-single", some 1, some 1, false⟩) 300 2 none).toOption.map
      Output.width = some 1248 ∧
    (createGridComposite (some [some ⟨600, 600⟩])
        (some ⟨some "4x6-single", some 1, some 1, false⟩) 300 2 none).toOption.map
      Output.height = some 1248 ∧
    (1248 : ℤ) ≠ 1200 ∧ (1248 : ℤ) ≠ 1800 := by
  refine ⟨by decide, ?_, ?_, ?_, ?_, by decide, by decide⟩
  · rw [show ((4 : ℚ) * 300) = ((1200 : ℤ) : ℚ) from by norm_num, jsRound_intCast]
  · rw [show ((6 : ℚ) * 300) = ((1800 : ℤ) : ℚ) from by norm_num, jsRound_intCast]
  · norm_num [createGridComposite, jsTruthyNat, gridStripRoute, getPageSizeFromGrid,
      jsFalsyArg, catalogLookup, gridToPageSize, gridIdOf, effMaxCellWidth,
      autoMaxCellWidth, decodeAll, finalCellInches, buildCellDims, buildCellDimsAux,
      assocGet, assocSet, jsRound, gridDrawOp, aspectFitPlace, Output.width, List.find?]
    decide
  · norm_num [createGridComposite, jsTruthyNat, gridStripRoute, getPageSizeFromGrid,
      jsFalsyArg, catalogLookup, gridToPageSize, gridIdOf, effMaxCellWidth,
      autoMaxCellWidth, decodeAll, finalCellInches, buildCellDims, buildCellDimsAux,
      assocGet, assocSet, jsRound, gridDrawOp, aspectFitPlace, Output.height, List.find?]
    decide

/-- C1 (amended, proved): for every valid non-strip grid whose photos all
decode, the composite is produced with pixel dimensions
`marginSize + (cellPx + marginSize) · cols` by
`marginSize + (cellPx + marginSize) · rows`, where
`cellPx = round(maxCellWidthInches · dpi)` (cells are square) and
`marginSize = round(cellPx · marginPercent/100)`; these generally differ
from `round(pageWidth·dpi) × round(pageHeight·dpi)`. -/
theorem claim1_amended_dims (photos : List (Option Img)) (images : List Img)
    (g : Grid) (c r : Nat) (dpi mp : ℚ) (mcwArg : Option ℚ)
    (hc : g.cols = some c) (hr : g.rows = some r) (hc0 : c ≠ 0) (hr0 : r ≠ 0)
    (hroute : gridStripRoute g = false) (hlen : photos.length = c * r)
    (hdec : decodeAll photos = some images)
    (hmcw : 0 ≤ effMaxCellWidth mcwArg (getPageSizeFromGrid (GridArg.obj g)) c r) :
    (let mcw := effMaxCellWidth mcwArg (getPageSizeFromGrid (GridArg.obj g)) c r
     let cpx := jsRound (mcw * dpi)
     let m := jsRound ((cpx : ℚ) * (mp / 100))
     ∃ ops, createGridComposite (some photos) (some g) dpi mp mcwArg =
       .ok (.gridCanvas ⟨m + (cpx + m) * (c : ℤ), m + (cpx + m) * (r : ℤ), ops⟩)) := by
  exact ⟨_, createGrid_ok photos images g c r dpi mp mcwArg
    hc hr hc0 hr0 hroute hlen hdec hmcw⟩

theorem claim1_amended_dims_witness :
    ∃ ops, createGridComposite (some [some ⟨600, 600⟩])
        (some ⟨some "4x6-single", some 1, some 1, false⟩) 300 2 none =
      .ok (.gridCanvas ⟨1248, 1248, ops⟩) := by
  have hpc : getPageSizeFromGrid
      (GridArg.obj ⟨some "4x6-single", some 1, some 1, false⟩) = ⟨4, 6, "4x6"⟩ := by decide
  obtain ⟨ops, hops⟩ := claim1_amended_dims [some ⟨600, 600⟩] [⟨600, 600⟩]
    ⟨some "4x6-single", some 1, some 1, false⟩ 1 1 300 2 none rfl rfl
    (by decide) (by decide) (by decide) rfl (by decide)
    (by rw [hpc]; norm_num [effMaxCellWidth, autoMaxCellWidth])
  refine ⟨ops, ?_⟩
  rw [hops]
  rw [hpc]
  have hm : effMaxCellWidth none (⟨4, 6, "4x6"⟩ : PageSizeConfig) 1 1 = 4 := by
    norm_num [effMaxCellWidth, autoMaxCellWidth]
  rw [hm]
  have hc : jsRound ((4 : ℚ) * 300) = 1200 := by
    rw [show ((4 : ℚ) * 300) = ((1200 : ℤ) : ℚ) from by norm_num, jsRound_intCast]
  rw [hc]
  have hmg : jsRound (((1200 : ℤ) : ℚ) * (2 / 100)) = 24 := by
    rw [show (((1200 : ℤ) : ℚ) * (2 / 100)) = ((24 : ℤ) : ℚ) from by norm_num,
      jsRound_intCast]
  rw [hmg]
  norm_num

/-- C3 (confirmed): for every list of exactly 4 photos of arbitrary positive
aspect ratios and every positive integer dpi, the strip compositor returns a
canvas exactly `round(4·dpi)` px wide and `round(6·dpi)` px tall (equal to
`2·stripWidth` wide), whose left half equals its right half pixel for pixel
before encoding — the same strip rasterization is blitted at `x = 0` and
`x = stripWidthPx` — the strip being 2in × 6in and holding the 4 photos
stacked vertically (photo `i` contained in the cell spanning
`[i·cellHeightPx, (i+1)·cellHeightPx]`) on a white background. -/
theorem claim3_strip_duplication (images : List Img) (n : ℕ)
    (hlen : images.length = 4) (hn : 0 < n)
    (hdims : ∀ img ∈ images, 0 < img.width ∧ 0 < img.height) :
    ∃ s : StripComposite,
      createStripGridComposite (some (images.map some)) ((n : ℚ)) = .ok (.stripCanvas s) ∧
      s.canvasWidth = jsRound (4 * (n : ℚ)) ∧ s.canvasHeight = jsRound (6 * (n : ℚ)) ∧
      s.canvasWidth = 4 * (n : ℤ) ∧ s.canvasHeight = 6 * (n : ℤ) ∧
      s.stripWidth = 2 * (n : ℤ) ∧ s.stripHeight = 6 * (n : ℤ) ∧
      s.canvasWidth = 2 * s.stripWidth ∧
      (∀ (α : Type) (R : ℤ → ℤ → α) (white : α) (x y : ℤ), 0 ≤ x → x < s.stripWidth →
        stripFinalPixels s R white (x + s.stripWidth) y = stripFinalPixels s R white x y) ∧
      s.stripOps.length = 4 ∧
      (∀ i (hi : i < s.stripOps.length) (hi2 : i < images.length),
        (s.stripOps.get ⟨i, hi⟩).srcW = (images.get ⟨i, hi2⟩).width ∧
        (s.stripOps.get ⟨i, hi⟩).srcH = (images.get ⟨i, hi2⟩).height ∧
        insideBox
          ⟨(s.stripOps.get ⟨i, hi⟩).dstX, (s.stripOps.get ⟨i, hi⟩).dstY,
           (s.stripOps.get ⟨i, hi⟩).dstW, (s.stripOps.get ⟨i, hi⟩).dstH⟩
          0 ((i : ℚ) * ((jsRound (6 / 4 * (n : ℚ)) : ℤ) : ℚ))
          ((jsRound (2 * (n : ℚ)) : ℤ) : ℚ) ((jsRound (6 / 4 * (n : ℚ)) : ℤ) : ℚ)) := by
  have hphotos : (images.map some).length = 4 := by simpa using hlen
  have hok := createStrip_ok (images.map some) images ((n : ℚ)) hphotos
    (decodeAll_map_some images)
  have c2 : jsRound (2 * (n : ℚ)) = 2 * (n : ℤ) := by
    rw [show (2 * (n : ℚ)) = ((2 * (n : ℤ) : ℤ) : ℚ) from by push_cast; ring, jsRound_intCast]
  have c4 : jsRound (4 * (n : ℚ)) = 4 * (n : ℤ) := by
    rw [show (4 * (n : ℚ)) = ((4 * (n : ℤ) : ℤ) : ℚ) from by push_cast; ring, jsRound_intCast]
  have c6 : jsRound (6 * (n : ℚ)) = 6 * (n : ℤ) := by
    rw [show (6 * (n : ℚ)) = ((6 * (n : ℤ) : ℤ) : ℚ) from by push_cast; ring, jsRound_intCast]
  have hsw : (0 : ℤ) < jsRound (2 * (n : ℚ)) := by
    rw [c2]
    have : (0 : ℤ) < (n : ℤ) := by exact_mod_cast hn
    omega
  have hch : (0 : ℤ) < jsRound (6 / 4 * (n : ℚ)) := jsRound_cellHeight_pos n hn
  refine ⟨_, hok, rfl, rfl, c4, c6, c2, c6, ?_, ?_, ?_, ?_⟩
  · show jsRound (4 * (n : ℚ)) = 2 * jsRound (2 * (n : ℚ))
    rw [c4, c2]; ring
  · intro α R white x y hx0 hx
    exact stripFinalPixels_halves _ R white hsw x y hx0 hx
  · show (images.enum.map _).length = 4
    rw [enumMap_length]
    exact hlen
  · intro i hi hi2
    have hget : ∀ (hi' : i < (images.enum.map
        (fun p => stripDrawOp p.2 p.1 (jsRound (2 * (n : ℚ))) (jsRound (6 / 4 * (n : ℚ))))).length),
        (images.enum.map
          (fun p => stripDrawOp p.2 p.1 (jsRound (2 * (n : ℚ))) (jsRound (6 / 4 * (n : ℚ))))).get ⟨i, hi'⟩ =
        stripDrawOp (images.get ⟨i, hi2⟩) i (jsRound (2 * (n : ℚ))) (jsRound (6 / 4 * (n : ℚ))) := by
      intro hi'
      rw [enumMap_get images _ i hi' hi2]
    rw [hget hi]
    exact stripDrawOp_spec (images.get ⟨i, hi2⟩) i _ _ hsw hch

theorem claim3_strip_duplication_witness :
    ∃ s : StripComposite,
      createStripGridComposite
        (some ([⟨800, 600⟩, ⟨600, 800⟩, ⟨100, 100⟩, ⟨300, 100⟩].map some))
        (((300 : ℕ) : ℚ)) = .ok (.stripCanvas s) ∧
      s.canvasWidth = 1200 ∧ s.canvasHeight = 1800 ∧ s.stripWidth = 600 ∧
      ∀ (R : ℤ → ℤ → ℤ) (white : ℤ) (y : ℤ),
        stripFinalPixels s R white (5 + s.stripWidth) y =
          stripFinalPixels s R white 5 y := by
  obtain ⟨s, hok, _, _, hcw, hchh, hsw, _, _, hhalves, _, _⟩ :=
    claim3_strip_duplication [⟨800, 600⟩, ⟨600, 800⟩, ⟨100, 100⟩, ⟨300, 100⟩] 300
      rfl (by norm_num) (by decide)
  refine ⟨s, hok, by rw [hcw]; norm_num, by rw [hchh]; norm_num,
    by rw [hsw]; norm_num, ?_⟩
  intro R white y
  exact hhalves ℤ R white 5 y (by norm_num) (by rw [hsw]; norm_num)

/-- C5 (confirmed): the general compositor assigns the photo at index `i`
to column `⌊i/rows⌋` and row `i % rows` (column-major vertical fill): its
draw rectangle lies inside the box of exactly that cell; the strip path
instead places photo `i` at vertical cell position `i` in a single column
of 4. -/
theorem claim5_ordering :
    (∀ (photos : List (Option Img)) (images : List Img) (g : Grid) (c r : Nat)
        (dpi mp : ℚ) (mcwArg : Option ℚ),
      g.cols = some c → g.rows = some r → c ≠ 0 → r ≠ 0 →
      gridStripRoute g = false → photos.length = c * r →
      decodeAll photos = some images →
      0 ≤ effMaxCellWidth mcwArg (getPageSizeFromGrid (GridArg.obj g)) c r →
      0 < jsRound (effMaxCellWidth mcwArg (getPageSizeFromGrid (GridArg.obj g)) c r * dpi) →
      ∃ cv : Canvas,
        createGridComposite (some photos) (some g) dpi mp mcwArg = .ok (.gridCanvas cv) ∧
        cv.ops.length = images.length ∧
        ∀ i (hi : i < cv.ops.length) (hi2 : i < images.length),
          (let cpx := jsRound (effMaxCellWidth mcwArg (getPageSizeFromGrid (GridArg.obj g)) c r * dpi)
           let m := jsRound ((cpx : ℚ) * (mp / 100))
           (cv.ops.get ⟨i, hi⟩).srcW = (images.get ⟨i, hi2⟩).width ∧
           insideBox
             ⟨(cv.ops.get ⟨i, hi⟩).dstX, (cv.ops.get ⟨i, hi⟩).dstY,
              (cv.ops.get ⟨i, hi⟩).dstW, (cv.ops.get ⟨i, hi⟩).dstH⟩
             ((m : ℚ) + ((i / r : ℕ) : ℚ) * ((cpx : ℚ) + (m : ℚ)))
             ((m : ℚ) + ((i % r : ℕ) : ℚ) * ((cpx : ℚ) + (m : ℚ)))
             (cpx : ℚ) (cpx : ℚ))) ∧
    (∀ (images : List Img) (n : ℕ), images.length = 4 → 0 < n →
      ∃ s : StripComposite,
        createStripGridComposite (some (images.map some)) ((n : ℚ)) = .ok (.stripCanvas s) ∧
        s.stripOps.length = 4 ∧
        ∀ i (hi : i < s.stripOps.length) (hi2 : i < images.length),
          (s.stripOps.get ⟨i, hi⟩).srcW = (images.get ⟨i, hi2⟩).width ∧
          insideBox
            ⟨(s.stripOps.get ⟨i, hi⟩).dstX, (s.stripOps.get ⟨i, hi⟩).dstY,
             (s.stripOps.get ⟨i, hi⟩).dstW, (s.stripOps.get ⟨i, hi⟩).dstH⟩
            0 ((i : ℚ) * ((jsRound (6 / 4 * (n : ℚ)) : ℤ) : ℚ))
            ((jsRound (2 * (n : ℚ)) : ℤ) : ℚ) ((jsRound (6 / 4 * (n : ℚ)) : ℤ) : ℚ)) := by
  constructor
  · intro photos images g c r dpi mp mcwArg hc hr hc0 hr0 hroute hlen hdec hmcw hpx
    have hok := createGrid_ok photos images g c r dpi mp mcwArg
      hc hr hc0 hr0 hroute hlen hdec hmcw
    refine ⟨_, hok, ?_, ?_⟩
    · show (images.enum.map _).length = images.length
      exact enumMap_length images _
    · intro i hi hi2
      have hget : ∀ (hi' : i < (images.enum.map
          (fun p => gridDrawOp p.2 p.1 r
            (jsRound (effMaxCellWidth mcwArg (getPageSizeFromGrid (GridArg.obj g)) c r * dpi))
            (jsRound (effMaxCellWidth mcwArg (getPageSizeFromGrid (GridArg.obj g)) c r * dpi))
            (jsRound ((jsRound (effMaxCellWidth mcwArg (getPageSizeFromGrid (GridArg.obj g)) c r * dpi) : ℚ) * (mp / 100))))).length),
          (images.enum.map
            (fun p => gridDrawOp p.2 p.1 r
              (jsRound (effMaxCellWidth mcwArg (getPageSizeFromGrid (GridArg.obj g)) c r * dpi))
              (jsRound (effMaxCellWidth mcwArg (getPageSizeFromGrid (GridArg.obj g)) c r * dpi))
              (jsRound ((jsRound (effMaxCellWidth mcwArg (getPageSizeFromGrid (GridArg.obj g)) c r * dpi) : ℚ) * (mp / 100))))).get ⟨i, hi'⟩ =
          gridDrawOp (images.get ⟨i, hi2⟩) i r
            (jsRound (effMaxCellWidth mcwArg (getPageSizeFromGrid (GridArg.obj g)) c r * dpi))
            (jsRound (effMaxCellWidth mcwArg (getPageSizeFromGrid (GridArg.obj g)) c r * dpi))
            (jsRound ((jsRound (effMaxCellWidth mcwArg (getPageSizeFromGrid (GridArg.obj g)) c r * dpi) : ℚ) * (mp / 100))) := by
        intro hi'
        rw [enumMap_get images _ i hi' hi2]
      rw [hget hi]
      obtain ⟨h1, h2, h3⟩ := gridDrawOp_spec (images.get ⟨i, hi2⟩) i r _ _
        (jsRound ((jsRound (effMaxCellWidth mcwArg (getPageSizeFromGrid (GridArg.obj g)) c r * dpi) : ℚ) * (mp / 100)))
        hpx hpx
      exact ⟨h1, h3⟩
  · intro images n hlen hn
    have hphotos : (images.map some).length = 4 := by simpa using hlen
    have hok := createStrip_ok (images.map some) images ((n : ℚ)) hphotos
      (decodeAll_map_some images)
    have hsw : (0 : ℤ) < jsRound (2 * (n : ℚ)) := by
      rw [show (2 * (n : ℚ)) = ((2 * (n : ℤ) : ℤ) : ℚ) from by push_cast; ring,
        jsRound_intCast]
      have : (0 : ℤ) < (n : ℤ) := by exact_mod_cast hn
      omega
    have hch : (0 : ℤ) < jsRound (6 / 4 * (n : ℚ)) := jsRound_cellHeight_pos n hn
    refine ⟨_, hok, ?_, ?_⟩
    · show (images.enum.map _).length = 4
      rw [enumMap_length]
      exact hlen
    · intro i hi hi2
      have hget : ∀ (hi' : i < (images.enum.map
          (fun p => stripDrawOp p.2 p.1 (jsRound (2 * (n : ℚ))) (jsRound (6 / 4 * (n : ℚ))))).length),
          (images.enum.map
            (fun p => stripDrawOp p.2 p.1 (jsRound (2 * (n : ℚ))) (jsRound (6 / 4 * (n : ℚ))))).get ⟨i, hi'⟩ =
          stripDrawOp (images.get ⟨i, hi2⟩) i (jsRound (2 * (n : ℚ))) (jsRound (6 / 4 * (n : ℚ))) := by
        intro hi'
        rw [enumMap_get images _ i hi' hi2]
      rw [hget hi]
      obtain ⟨h1, h2, h3⟩ := stripDrawOp_spec (images.get ⟨i, hi2⟩) i _ _ hsw hch
      exact ⟨h1, h3⟩

theorem claim5_ordering_witness :
    ∃ cv : Canvas,
      createGridComposite
        (some ([⟨800, 600⟩, ⟨600, 800⟩, ⟨100, 100⟩, ⟨300, 100⟩].map some))
        (some ⟨some "4x6-4cut", some 2, some 2, false⟩) 300 2 none =
        .ok (.gridCanvas cv) ∧
      cv.ops.length = 4 := by
  have hpc : getPageSizeFromGrid
      (GridArg.obj ⟨some "4x6-4cut", some 2, some 2, false⟩) = ⟨4, 6, "4x6"⟩ := by decide
  obtain ⟨cv, hok, hlen, _⟩ := (claim5_ordering).1
    ([⟨800, 600⟩, ⟨600, 800⟩, ⟨100, 100⟩, ⟨300, 100⟩].map some)
    [⟨800, 600⟩, ⟨600, 800⟩, ⟨100, 100⟩, ⟨300, 100⟩]
    ⟨some "4x6-4cut", some 2, some 2, false⟩ 2 2 300 2 none rfl rfl
    (by decide) (by decide) (by decide) (by decide)
    (decodeAll_map_some _)
    (by rw [hpc]; norm_num [effMaxCellWidth, autoMaxCellWidth])
    (by rw [hpc]; norm_num [effMaxCellWidth, autoMaxCellWidth, jsRound])
  exact ⟨cv, hok, by rw [hlen]; rfl⟩

theorem createGrid_okShape (photos : List (Option Img)) (images : List Img)
    (g : Grid) (c r : Nat) (dpi mp : ℚ) (mcwArg : Option ℚ)
    (hc : g.cols = some c) (hr : g.rows = some r) (hc0 : c ≠ 0) (hr0 : r ≠ 0)
    (hroute : gridStripRoute g = false) (hlen : photos.length = c * r)
    (hdec : decodeAll photos = some images) :
    createGridComposite (some photos) (some g) dpi mp mcwArg =
      (let mcw := effMaxCellWidth mcwArg (getPageSizeFromGrid (GridArg.obj g)) c r
       let wh := finalCellInches images r mcw
       let cw := jsRound (wh.1 * dpi)
       let ch := jsRound (wh.2 * dpi)
       let m := jsRound (((min cw ch : ℤ) : ℚ) * (mp / 100))
       .ok (.gridCanvas ⟨m + (cw + m) * (c : ℤ), m + (ch + m) * (r : ℤ),
         images.enum.map (fun p => gridDrawOp p.2 p.1 r cw ch m)⟩)) := by
  have hne : c * r ≠ 0 := Nat.mul_ne_zero hc0 hr0
  simp only [createGridComposite, hc, hr, hroute, hlen, hne, Option.getD_some,
    jsTruthyNat, hc0, hr0, hdec, if_false, Bool.false_eq_true, ite_false]
  simp [hc0, hr0, hne]

/-- C7 (confirmed): `createGridComposite` raises `InvalidInput` — before any
decode or draw work (the characterization below does not depend on whether
any photo decodes) and with no partial output (the result type is all-or-
nothing) — exactly when the photo list is missing or empty, a grid dimension
is missing or zero (JS falsy), or the photo count differs from `cols·rows`
(from 4 on the strip route); the count-mismatch messages name the expected
and the actual count. -/
theorem claim7_invalid_input (photos : List (Option Img)) (grid : Option Grid)
    (dpi mp : ℚ) (mcwArg : Option ℚ) :
    (isInvalidInput (createGridComposite none grid dpi mp mcwArg) = true) ∧
    (isInvalidInput (createGridComposite (some photos) grid dpi mp mcwArg) = true ↔
      photos = [] ∨ grid = none ∨ ∃ g, grid = some g ∧
        (jsTruthyNat g.cols = false ∨ jsTruthyNat g.rows = false ∨
         (gridStripRoute g = true ∧ photos.length ≠ 4) ∨
         (gridStripRoute g = false ∧
           photos.length ≠ (g.cols.getD 0) * (g.rows.getD 0)))) ∧
    (∀ g, grid = some g →
      jsTruthyNat g.cols = true → jsTruthyNat g.rows = true →
      gridStripRoute g = false → photos ≠ [] →
      photos.length ≠ (g.cols.getD 0) * (g.rows.getD 0) →
      createGridComposite (some photos) grid dpi mp mcwArg =
        .error (.invalidInput ("Expected " ++ toString ((g.cols.getD 0) * (g.rows.getD 0))
          ++ " photos, got " ++ toString photos.length))) ∧
    (∀ g, grid = some g →
      jsTruthyNat g.cols = true → jsTruthyNat g.rows = true →
      gridStripRoute g = true → photos ≠ [] → photos.length ≠ 4 →
      createGridComposite (some photos) grid dpi mp mcwArg =
        .error (.invalidInput ("Strip grid requires exactly 4 photos, got "
          ++ toString photos.length))) := by
  refine ⟨by cases grid <;> simp [createGridComposite, isInvalidInput], ?_, ?_, ?_⟩
  · by_cases hp : photos = []
    · subst hp
      cases grid <;> simp [createGridComposite, isInvalidInput]
    · have hlen : photos.length ≠ 0 := by simpa [List.length_eq_zero] using hp
      cases grid with
      | none => simp [createGridComposite, isInvalidInput, hlen, hp]
      | some g =>
        by_cases hcols : jsTruthyNat g.cols
        · by_cases hrows : jsTruthyNat g.rows
          · by_cases hroute : gridStripRoute g
            · by_cases h4 : photos.length = 4
              · rw [createGrid_stripRoute photos g dpi mp mcwArg hcols hrows hroute h4]
                cases hdec : decodeAll photos with
                | none =>
                  rw [createStrip_decodeFailure photos dpi h4 hdec]
                  simp [isInvalidInput, hp, hcols, hrows, hroute, h4]
                | some images =>
                  rw [createStrip_ok photos images dpi h4 hdec]
                  simp [isInvalidInput, hp, hcols, hrows, hroute, h4]
              · simp [createGridComposite, isInvalidInput, hlen, hp, hcols, hrows,
                  hroute, h4]
            · by_cases hcnt : photos.length = (g.cols.getD 0) * (g.rows.getD 0)
              · cases hdec : decodeAll photos with
                | none =>
                  obtain ⟨c, hc⟩ : ∃ c, g.cols = some c := by
                    cases hgc : g.cols with
                    | none => rw [hgc] at hcols; simp [jsTruthyNat] at hcols
                    | some c => exact ⟨c, rfl⟩
                  obtain ⟨r, hry⟩ : ∃ r, g.rows = some r := by
                    cases hgr : g.rows with
                    | none => rw [hgr] at hrows; simp [jsTruthyNat] at hrows
                    | some r => exact ⟨r, rfl⟩
                  have hc0 : c ≠ 0 := by
                    rw [hc] at hcols; simpa [jsTruthyNat] using hcols
                  have hr0 : r ≠ 0 := by
                    rw [hry] at hrows; simpa [jsTruthyNat] using hrows
                  have hroute' : gridStripRoute g = false := by
                    simpa using hroute
                  rw [createGrid_decodeFailure photos g c r dpi mp mcwArg hc hry hc0 hr0
                    hroute' (by rw [hcnt, hc, hry]; simp) hdec]
                  simp [isInvalidInput, hp, hcols, hrows, hroute, hcnt]
                | some images =>
                  obtain ⟨c, hc⟩ : ∃ c, g.cols = some c := by
                    cases hgc : g.cols with
                    | none => rw [hgc] at hcols; simp [jsTruthyNat] at hcols
                    | some c => exact ⟨c, rfl⟩
                  obtain ⟨r, hry⟩ : ∃ r, g.rows = some r := by
                    cases hgr : g.rows with
                    | none => rw [hgr] at hrows; simp [jsTruthyNat] at hrows
                    | some r => exact ⟨r, rfl⟩
                  have hc0 : c ≠ 0 := by
                    rw [hc] at hcols; simpa [jsTruthyNat] using hcols
                  have hr0 : r ≠ 0 := by
                    rw [hry] at hrows; simpa [jsTruthyNat] using hrows
                  have hroute' : gridStripRoute g = false := by
                    simpa using hroute
                  rw [createGrid_okShape photos images g c r dpi mp mcwArg hc hry hc0 hr0
                    hroute' (by rw [hcnt, hc, hry]; simp) hdec]
                  simp [isInvalidInput, hp, hcols, hrows, hroute, hcnt]
              · simp [createGridComposite, isInvalidInput, hlen, hp, hcols, hrows,
                  hroute, hcnt]
          · simp [createGridComposite, isInvalidInput, hlen, hp, hcols, hrows]
        · simp [createGridComposite, isInvalidInput, hlen, hp, hcols]
  · intro g hg hcols hrows hroute hp hcnt
    subst hg
    have hlen : photos.length ≠ 0 := by simpa [List.length_eq_zero] using hp
    simp [createGridComposite, hlen, hcols, hrows, hroute, hcnt]
  · intro g hg hcols hrows hroute hp h4
    subst hg
    have hlen : photos.length ≠ 0 := by simpa [List.length_eq_zero] using hp
    simp [createGridComposite, hlen, hcols, hrows, hroute, h4]

theorem claim7_invalid_input_witness :
    createGridComposite (some [some ⟨100, 100⟩])
        (some ⟨some "4x6-4cut", some 2, some 2, false⟩) 300 2 none =
      .error (.invalidInput "Expected 4 photos, got 1") := by
  obtain ⟨h1, h2, h3, h4⟩ := claim7_invalid_input [some ⟨100, 100⟩]
    (some ⟨some "4x6-4cut", some 2, some 2, false⟩) 300 2 none
  have hmsg := h3 ⟨some "4x6-4cut", some 2, some 2, false⟩ rfl
    (by decide) (by decide) (by decide) (by decide) (by decide)
  rw [hmsg]
  exact congrArg (fun s => Except.error (CompositeError.invalidInput s)) (by decide)

/-- C8 (confirmed): under satisfied preconditions (either route), the
composite fails with `DecodeFailure` exactly when some source image fails to
decode — the whole composite aborts, and the all-or-nothing result type
yields no partial bitmap — and on full decode success the result is a
canvas whose draw operations are exactly one per photo, in index order,
each sourcing the full bitmap of the photo at that index. -/
theorem claim8_decode_failure (photos : List (Option Img)) (g : Grid) (c r : Nat)
    (dpi mp : ℚ) (mcwArg : Option ℚ)
    (hc : g.cols = some c) (hr : g.rows = some r) (hc0 : c ≠ 0) (hr0 : r ≠ 0)
    (hlen4 : gridStripRoute g = true → photos.length = 4)
    (hlenG : gridStripRoute g = false → photos.length = c * r) :
    (createGridComposite (some photos) (some g) dpi mp mcwArg = .error .decodeFailure ↔
      none ∈ photos) ∧
    (none ∉ photos →
      ∃ out, createGridComposite (some photos) (some g) dpi mp mcwArg = .ok out ∧
        out.ops.length = photos.length ∧
        ∀ i (hi : i < out.ops.length) (hi2 : i < photos.length),
          ∃ img, photos.get ⟨i, hi2⟩ = some img ∧
            (out.ops.get ⟨i, hi⟩).srcW = img.width ∧
            (out.ops.get ⟨i, hi⟩).srcH = img.height) := by
  have hcols : jsTruthyNat g.cols = true := by rw [hc]; simp [jsTruthyNat, hc0]
  have hrows : jsTruthyNat g.rows = true := by rw [hr]; simp [jsTruthyNat, hr0]
  by_cases hroute : gridStripRoute g
  · have h4 := hlen4 hroute
    rw [createGrid_stripRoute photos g dpi mp mcwArg hcols hrows hroute h4]
    cases hdec : decodeAll photos with
    | none =>
      have hmem : none ∈ photos := (decodeAll_eq_none_iff photos).mp hdec
      rw [createStrip_decodeFailure photos dpi h4 hdec]
      exact ⟨by simp [hmem], fun hnone => absurd hmem hnone⟩
    | some images =>
      have hmem : ¬ none ∈ photos := by
        intro hm
        rw [(decodeAll_eq_none_iff photos).mpr hm] at hdec
        exact Option.noConfusion hdec
      rw [createStrip_ok photos images dpi h4 hdec]
      obtain ⟨hlen', hget'⟩ := decodeAll_some_spec photos images hdec
      refine ⟨by simp [hmem], ?_⟩
      intro _
      refine ⟨_, rfl, ?_, ?_⟩
      · show (images.enum.map _).length = photos.length
        rw [enumMap_length]
        exact hlen'
      · intro i hi hi2
        have hii : i < images.length := by rw [hlen']; exact hi2
        refine ⟨images.get ⟨i, hii⟩, hget' i hi2 hii, ?_, ?_⟩
        · exact congrArg DrawOp.srcW (enumMap_get images _ i hi hii)
        · exact congrArg DrawOp.srcH (enumMap_get images _ i hi hii)
  · have hroute' : gridStripRoute g = false := by simpa using hroute
    have hlen := hlenG hroute'
    cases hdec : decodeAll photos with
    | none =>
      have hmem : none ∈ photos := (decodeAll_eq_none_iff photos).mp hdec
      rw [createGrid_decodeFailure photos g c r dpi mp mcwArg hc hr hc0 hr0
        hroute' hlen hdec]
      exact ⟨by simp [hmem], fun hnone => absurd hmem hnone⟩
    | some images =>
      have hmem : ¬ none ∈ photos := by
        intro hm
        rw [(decodeAll_eq_none_iff photos).mpr hm] at hdec
        exact Option.noConfusion hdec
      rw [createGrid_okShape photos images g c r dpi mp mcwArg hc hr hc0 hr0
        hroute' hlen hdec]
      obtain ⟨hlen', hget'⟩ := decodeAll_some_spec photos images hdec
      refine ⟨by simp [hmem], ?_⟩
      intro _
      refine ⟨_, rfl, ?_, ?_⟩
      · show (images.enum.map _).length = photos.length
        rw [enumMap_length]
        exact hlen'
      · intro i hi hi2
        have hii : i < images.length := by rw [hlen']; exact hi2
        refine ⟨images.get ⟨i, hii⟩, hget' i hi2 hii, ?_, ?_⟩
        · exact congrArg DrawOp.srcW (enumMap_get images _ i hi hii)
        · exact congrArg DrawOp.srcH (enumMap_get images _ i hi hii)

theorem claim8_decode_failure_witness :
    createGridComposite (some [some ⟨100, 100⟩, none, some ⟨50, 50⟩, some ⟨10, 10⟩])
        (some ⟨some "strip-grid", some 1, some 4, false⟩) 300 2 none =
      .error .decodeFailure ∧
    ∃ out, createGridComposite (some [some ⟨100, 100⟩, some ⟨200, 100⟩,
        some ⟨50, 50⟩, some ⟨10, 10⟩])
        (some ⟨some "strip-grid", some 1, some 4, false⟩) 300 2 none = .ok out ∧
      out.ops.length = 4 := by
  constructor
  · exact (claim8_decode_failure
      [some ⟨100, 100⟩, none, some ⟨50, 50⟩, some ⟨10, 10⟩]
      ⟨some "strip-grid", some 1, some 4, false⟩ 1 4 300 2 none rfl rfl
      (by decide) (by decide) (fun _ => rfl) (fun _ => rfl)).1.mpr (by decide)
  · obtain ⟨out, hok, hlen, _⟩ := (claim8_decode_failure
      [some ⟨100, 100⟩, some ⟨200, 100⟩, some ⟨50, 50⟩, some ⟨10, 10⟩]
      ⟨some "strip-grid", some 1, some 4, false⟩ 1 4 300 2 none rfl rfl
      (by decide) (by decide) (fun _ => rfl) (fun _ => rfl)).2 (by decide)
    exact ⟨out, hok, by rw [hlen]; rfl⟩

end PhotoBooth
